import Mathlib

/-!
Verification development for the `binance-kline-api` worker (`src/worker.js`).

The worker is a stateless HTTP request handler.  We shallowly embed it:

* JavaScript values that flow through the handler are modelled explicitly:
  a query-string lookup yields `Option String` (`null` or a string), and
  JavaScript numbers are modelled by `JSNum` (NaN, the two infinities, or an
  exact rational).  Using exact rationals instead of IEEE doubles is a
  modelling choice; every concrete value appearing in this development is
  exactly representable in both.
* The `fetch` to the upstream API is the handler's only effect.  We factor
  the handler into a pure routing/validation phase (`routeAndValidate`) and
  a response-mapping phase (`handleUpstream`) that consumes the outcome of
  the single upstream call, supplied as an explicit `UpstreamResult`.
* Response headers are the constant CORS/content-type headers from
  `corsHeaders` / `jsonResponse`; bodies are modelled as `JSON` values
  (the argument to `JSON.stringify` in the source).
-/

/-- JSON values, as produced by `JSON.parse` and consumed by
`JSON.stringify` in the worker. -/
inductive JSON where
  | null
  | bool (b : Bool)
  | num (q : ℚ)
  | str (s : String)
  | arr (elems : List JSON)
  | obj (fields : List (String × JSON))

/-! ### A model of `JSON.parse`

`safeParseJSON` in the worker calls the JavaScript builtin `JSON.parse` and
falls back to `{raw: text}` when parsing throws.  We model `JSON.parse` with
an executable fuelled parser over the character list of the input.  The model
covers the standard JSON grammar (null, booleans, numbers, strings with the
usual escapes including `\uXXXX`, arrays, objects); numbers are read exactly
into `ℚ` rather than rounded to binary floating point. -/

def isJsonWs (c : Char) : Bool :=
  c = ' ' || c = '\t' || c = '\n' || c = '\r'

def skipWs (cs : List Char) : List Char :=
  cs.dropWhile isJsonWs

def hexDigitVal (c : Char) : Option Nat :=
  if '0' ≤ c ∧ c ≤ '9' then some (c.toNat - '0'.toNat)
  else if 'a' ≤ c ∧ c ≤ 'f' then some (c.toNat - 'a'.toNat + 10)
  else if 'A' ≤ c ∧ c ≤ 'F' then some (c.toNat - 'A'.toNat + 10)
  else none

/-- Decode the body of a JSON string literal (the opening quote already
consumed), returning the decoded characters and the remaining input. -/
def decodeStringBody : List Char → Option (List Char × List Char)
  | [] => none
  | '"' :: rest => some ([], rest)
  | '\\' :: 'u' :: a :: b :: c :: d :: rest =>
    match hexDigitVal a, hexDigitVal b, hexDigitVal c, hexDigitVal d with
    | some ha, some hb, some hc, some hd =>
      (decodeStringBody rest).map fun (s, r) =>
        (Char.ofNat (((ha * 16 + hb) * 16 + hc) * 16 + hd) :: s, r)
    | _, _, _, _ => none
  | '\\' :: e :: rest =>
    let dec? : Option Char :=
      if e = '"' then some '"'
      else if e = '\\' then some '\\'
      else if e = '/' then some '/'
      else if e = 'b' then some (Char.ofNat 8)
      else if e = 'f' then some (Char.ofNat 12)
      else if e = 'n' then some '\n'
      else if e = 'r' then some '\r'
      else if e = 't' then some '\t'
      else none
    match dec? with
    | some ch => (decodeStringBody rest).map fun (s, r) => (ch :: s, r)
    | none => none
  | c :: rest =>
    if c.toNat < 32 then none
    else (decodeStringBody rest).map fun (s, r) => (c :: s, r)

def digitsToNat (ds : List Char) : Nat :=
  ds.foldl (fun a c => a * 10 + (c.toNat - '0'.toNat)) 0

/-- Parse the optional exponent part of a JSON number; an empty/absent
exponent yields `0`, a malformed one fails. -/
def decodeExponent (cs : List Char) : Option (Int × List Char) :=
  match cs with
  | 'e' :: rest => decodeExponentSigned rest
  | 'E' :: rest => decodeExponentSigned rest
  | _ => some (0, cs)
where
  decodeExponentSigned (cs : List Char) : Option (Int × List Char) :=
    let (sgn, cs1) : Int × List Char :=
      match cs with
      | '+' :: r => (1, r)
      | '-' :: r => (-1, r)
      | r => (1, r)
    let (ds, rest) := cs1.span Char.isDigit
    if ds.isEmpty then none else some (sgn * (digitsToNat ds : Int), rest)

/-- The exact rational value `±ip.fp × 10^e` of a decimal literal with sign
`neg`, integer digits `ip`, fraction digits `fp` and exponent `e`.  The
value is assembled with integer arithmetic and a single `mkRat` so that it
evaluates inside the kernel. -/
def mkRatNum (neg : Bool) (ip fp : List Char) (e : Int) : ℚ :=
  let mag : Int := (digitsToNat ip * 10 ^ fp.length + digitsToNat fp : Nat)
  let m : Int := if neg then -mag else mag
  if 0 ≤ e then mkRat (m * (10 : Int) ^ e.toNat) (10 ^ fp.length)
  else mkRat m (10 ^ fp.length * 10 ^ (-e).toNat)

/-- Parse a JSON number literal (including the leading-zero restriction of
the JSON grammar), returning its exact rational value. -/
def decodeNumber (cs : List Char) : Option (ℚ × List Char) :=
  let (neg, cs1) : Bool × List Char :=
    match cs with
    | '-' :: r => (true, r)
    | _ => (false, cs)
  let (ip, cs2) := cs1.span Char.isDigit
  if ip.isEmpty then none
  else if 1 < ip.length ∧ ip.headD ' ' = '0' then none
  else
    match cs2 with
    | '.' :: r =>
      let (fp, cs3) := r.span Char.isDigit
      if fp.isEmpty then none
      else (decodeExponent cs3).map fun (e, cs4) => (mkRatNum neg ip fp e, cs4)
    | _ =>
      (decodeExponent cs2).map fun (e, cs4) => (mkRatNum neg ip [] e, cs4)

/-- Parse the unsigned decimal-literal fragment accepted by the JavaScript
`Number` conversion (the sign, handled by the caller, is passed in as
`neg`): digits, fraction and exponent, where leading zeros are allowed and
either the integer or the fraction digits may be absent, so that `"1."`
and `".5"` are valid. -/
def decodeJsMagnitude (neg : Bool) (cs : List Char) : Option (ℚ × List Char) :=
  let (ip, cs2) := cs.span Char.isDigit
  match cs2 with
  | '.' :: r =>
    let (fp, cs3) := r.span Char.isDigit
    if ip.isEmpty ∧ fp.isEmpty then none
    else (decodeExponent cs3).map fun (e, cs4) => (mkRatNum neg ip fp e, cs4)
  | _ =>
    if ip.isEmpty then none
    else (decodeExponent cs2).map fun (e, cs4) => (mkRatNum neg ip [] e, cs4)

mutual

def decodeValue : Nat → List Char → Option (JSON × List Char)
  | 0, _ => none
  | fuel + 1, cs =>
    match skipWs cs with
    | 'n' :: 'u' :: 'l' :: 'l' :: rest => some (.null, rest)
    | 't' :: 'r' :: 'u' :: 'e' :: rest => some (.bool true, rest)
    | 'f' :: 'a' :: 'l' :: 's' :: 'e' :: rest => some (.bool false, rest)
    | '"' :: rest =>
      (decodeStringBody rest).map fun (s, r) => (.str (String.mk s), r)
    | '[' :: rest =>
      (match skipWs rest with
       | ']' :: r => some (.arr [], r)
       | cs2 => (decodeElems fuel cs2).map fun (es, r) => (.arr es, r))
    | '{' :: rest =>
      (match skipWs rest with
       | '}' :: r => some (.obj [], r)
       | cs2 => (decodeMembers fuel cs2).map fun (fs, r) => (.obj fs, r))
    | cs1 => (decodeNumber cs1).map fun (q, r) => (.num q, r)

def decodeElems : Nat → List Char → Option (List JSON × List Char)
  | 0, _ => none
  | fuel + 1, cs =>
    match decodeValue fuel cs with
    | none => none
    | some (v, rest) =>
      match skipWs rest with
      | ',' :: r => (decodeElems fuel r).map fun (es, r2) => (v :: es, r2)
      | ']' :: r => some ([v], r)
      | _ => none

def decodeMembers : Nat → List Char → Option (List (String × JSON) × List Char)
  | 0, _ => none
  | fuel + 1, cs =>
    match skipWs cs with
    | '"' :: rest =>
      match decodeStringBody rest with
      | none => none
      | some (k, rest2) =>
        match skipWs rest2 with
        | ':' :: rest3 =>
          match decodeValue fuel rest3 with
          | none => none
          | some (v, rest4) =>
            match skipWs rest4 with
            | ',' :: r =>
              (decodeMembers fuel r).map fun (fs, r2) => ((String.mk k, v) :: fs, r2)
            | '}' :: r => some ([(String.mk k, v)], r)
            | _ => none
        | _ => none
    | _ => none

end

/-- Model of the JavaScript builtin `JSON.parse`: `none` when parsing would
throw. -/
def jsonDecode (s : String) : Option JSON :=
  match decodeValue (4 * s.length + 8) s.toList with
  | some (v, rest) => if (skipWs rest).isEmpty then some v else none
  | none => none

/-! ### A model of JavaScript numbers and the builtin conversions used -/

/-- A JavaScript number as observed by the worker: NaN, an infinity, or a
finite value (modelled exactly as a rational). -/
inductive JSNum where
  | nan
  | posInf
  | negInf
  | num (q : ℚ)
deriving DecidableEq

def JSNum.isFinite : JSNum → Bool
  | .num _ => true
  | _ => false

/-- `Math.trunc` on a finite value: truncation toward zero. -/
def jsTrunc (q : ℚ) : Int :=
  q.num.tdiv (q.den : Int)

def isJsSpace (c : Char) : Bool :=
  c = ' ' || c = '\t' || c = '\n' || c = '\r' || c = '\x0b' || c = '\x0c'

/-- Model of the JavaScript `Number(string)` conversion, restricted to
whitespace-trimmed decimal literals (optional sign, digits, fraction,
exponent) and `Infinity`; the empty/blank string converts to `0` and
anything else to NaN.  (The hex/octal/binary literal forms accepted by
JavaScript are outside the fragment exercised here.) -/
def jsStringToNumber (s : String) : JSNum :=
  let cs := ((s.toList.dropWhile isJsSpace).reverse.dropWhile isJsSpace).reverse
  match cs with
  | [] => .num 0
  | _ =>
    let (sgn, body) : Bool × List Char :=
      match cs with
      | '+' :: r => (false, r)
      | '-' :: r => (true, r)
      | r => (false, r)
    if body = "Infinity".toList then
      (if sgn then .negInf else .posInf)
    else
      match decodeJsMagnitude sgn body with
      | some (q, rest) => if rest.isEmpty then .num q else .nan
      | none => .nan

/-- `Number(value)` applied to a nullable string (`Number(null) = 0`). -/
def jsToNumber : Option String → JSNum
  | none => .num 0
  | some s => jsStringToNumber s

/-- JavaScript `x || d` for a nullable string `x`: `null` and the empty
string are falsy and select the default. -/
def jsOrDefault (v : Option String) (d : String) : String :=
  match v with
  | none => d
  | some s => if s = "" then d else s

/-- ASCII-fragment model of `String.prototype.toUpperCase`, written over
the character list so that it evaluates inside the kernel. -/
def toUpperCase (s : String) : String :=
  String.mk (s.toList.map fun c =>
    if 'a' ≤ c ∧ c ≤ 'z' then Char.ofNat (c.toNat - 32) else c)

/-! ### Configuration constants (`src/worker.js` lines 1-11) -/

def BINANCE_BASE_URL : String := "https://api.binance.com"

def DEFAULT_SYMBOL : String := "BTCUSDT"

def DEFAULT_INTERVAL : String := "1m"

def DEFAULT_LIMIT : Int := 100

def MAX_LIMIT : Int := 1000

def ALLOWED_INTERVALS : List String :=
  ["1s",
   "1m", "3m", "5m", "15m", "30m",
   "1h", "2h", "4h", "6h", "8h", "12h",
   "1d", "3d", "1w", "1M"]

/-! ### Helper functions (`src/worker.js` lines 122-133) -/

/-- The numeric core of `clampLimit`: the worker's mapping from the value
of `Number(rawLimit)` to the effective limit. -/
def clampLimitNum (n : JSNum) : Int :=
  match n with
  | .num parsed => if parsed ≤ 0 then DEFAULT_LIMIT else min (jsTrunc parsed) MAX_LIMIT
  | _ => DEFAULT_LIMIT

/-- `clampLimit` (`src/worker.js` lines 129-133): `Number(rawLimit)`, the
default for non-finite or non-positive values, otherwise
`Math.min(Math.trunc(parsed), MAX_LIMIT)`. -/
def clampLimit (rawLimit : Option String) : Int :=
  clampLimitNum (jsToNumber rawLimit)

/-- `parseTime` (`src/worker.js` lines 122-127): `null`/empty are falsy and
yield `null`; a non-finite or negative `Number(value)` yields `null`;
otherwise `Math.trunc(parsed)`. -/
def parseTime (value : Option String) : Option Int :=
  match value with
  | none => none
  | some s =>
    if s = "" then none
    else
      match jsStringToNumber s with
      | .num parsed => if parsed < 0 then none else some (jsTrunc parsed)
      | _ => none

/-! ### Request, response and envelope model -/

/-- An inbound request as the handler observes it: the method, the
pathname of the request URL, and the query parameters in order
(`url.searchParams`). -/
structure Request where
  method : String
  pathname : String
  searchParams : List (String × String)

/-- `url.searchParams.get(key)`: the first value bound to `key`, or
`null`. -/
def getParam (req : Request) (key : String) : Option String :=
  (req.searchParams.find? fun p => p.1 == key).map fun p => p.2

/-- An outbound response: status, headers, and the JSON body (`none` for
the body-less 204 reply to OPTIONS). -/
structure Response where
  status : Nat
  headers : List (String × String)
  body : Option JSON

/-- `corsHeaders` (`src/worker.js` lines 143-149). -/
def corsHeaders : List (String × String) :=
  [("Access-Control-Allow-Origin", "*"),
   ("Access-Control-Allow-Methods", "GET,OPTIONS"),
   ("Access-Control-Allow-Headers", "Content-Type")]

/-- `jsonResponse` (`src/worker.js` lines 151-159). -/
def jsonResponse (payload : JSON) (status : Nat) : Response :=
  { status := status
    headers := ("Content-Type", "application/json; charset=utf-8") :: corsHeaders
    body := some payload }

/-- `safeParseJSON` (`src/worker.js` lines 135-141). -/
def safeParseJSON (text : String) : JSON :=
  match jsonDecode text with
  | some v => v
  | none => .obj [("raw", .str text)]

def methodNotAllowedResponse : Response :=
  jsonResponse (.obj [("error", .str "Method Not Allowed"),
                      ("message", .str "Use GET requests only.")]) 405

def optionsResponse : Response :=
  { status := 204, headers := corsHeaders, body := none }

def rootResponse : Response :=
  jsonResponse (.obj
    [("service", .str "binance-kline-api"),
     ("status", .str "ok"),
     ("endpoints", .obj
       [("health", .str "/health"),
        ("kline", .str "/kline?symbol=BTCUSDT&interval=1m&limit=100"),
        ("klines", .str "/klines?symbol=ETHUSDT&interval=5m&limit=200")]),
     ("note", .str "Use /kline or /klines with query params: symbol, interval, limit, startTime, endTime")]) 200

def healthResponse : Response :=
  jsonResponse (.obj [("status", .str "ok")]) 200

def notFoundResponse : Response :=
  jsonResponse (.obj
    [("error", .str "Not Found"),
     ("message", .str "Use /kline or /klines with query params: symbol, interval, limit, startTime, endTime")]) 404

def invalidSymbolResponse : Response :=
  jsonResponse (.obj [("error", .str "Invalid symbol format")]) 400

def invalidIntervalResponse : Response :=
  jsonResponse (.obj [("error", .str "Invalid interval")]) 400

def invalidRangeResponse : Response :=
  jsonResponse (.obj [("error", .str "startTime must be <= endTime")]) 400

/-! ### Validation (`src/worker.js` lines 54-80) -/

/-- The test of the regular expression `^[A-Z0-9]{5,20}$` (`src/worker.js`
line 60). -/
def matchesSymbolPattern (s : String) : Bool :=
  decide (5 ≤ s.length) && decide (s.length ≤ 20) &&
    s.toList.all fun c => decide ('A' ≤ c ∧ c ≤ 'Z') || decide ('0' ≤ c ∧ c ≤ '9')

/-- The effective symbol `(url.searchParams.get('symbol') ||
DEFAULT_SYMBOL).toUpperCase()` (`src/worker.js` line 54). -/
def effectiveSymbol (req : Request) : String :=
  toUpperCase (jsOrDefault (getParam req "symbol") DEFAULT_SYMBOL)

/-- The effective interval `url.searchParams.get('interval') ||
DEFAULT_INTERVAL` (`src/worker.js` line 55). -/
def effectiveInterval (req : Request) : String :=
  jsOrDefault (getParam req "interval") DEFAULT_INTERVAL

/-- The cross-field condition `startTime !== null && endTime !== null &&
startTime > endTime` (`src/worker.js` line 68). -/
def rangeInvalid : Option Int → Option Int → Bool
  | some s, some e => decide (s > e)
  | _, _ => false

/-- The validated query parameters, together with the upstream query they
determine. -/
structure ValidatedParams where
  symbol : String
  interval : String
  limit : Int
  startTime : Option Int
  endTime : Option Int

/-- `new URLSearchParams({symbol, interval, limit}()` plus the conditional
`set` of `startTime`/`endTime` (`src/worker.js` lines 72-79). -/
def buildUpstreamQuery (p : ValidatedParams) : List (String × String) :=
  [("symbol", p.symbol), ("interval", p.interval), ("limit", toString p.limit)]
    ++ (match p.startTime with
        | some s => [("startTime", toString s)]
        | none => [])
    ++ (match p.endTime with
        | some e => [("endTime", toString e)]
        | none => [])

/-- The outcome of the pure phase of the handler: either the handler has
already produced a response without touching the network, or it proceeds
to the single upstream call with validated parameters. -/
inductive Routed where
  | done (r : Response)
  | proceed (p : ValidatedParams)

/-- Parameter extraction and validation for `/kline`/`/klines`
(`src/worker.js` lines 54-80), reached only after routing. -/
def validateAndBuild (req : Request) : Routed :=
  let symbol := effectiveSymbol req
  let interval := effectiveInterval req
  let limit := clampLimit (getParam req "limit")
  let startTime := parseTime (getParam req "startTime")
  let endTime := parseTime (getParam req "endTime")
  if !matchesSymbolPattern symbol then .done invalidSymbolResponse
  else if !(ALLOWED_INTERVALS.contains interval) then .done invalidIntervalResponse
  else if rangeInvalid startTime endTime then .done invalidRangeResponse
  else .proceed ⟨symbol, interval, limit, startTime, endTime⟩

/-- Model of `url.pathname.endsWith('/')`, written over the character list
so that it evaluates inside the kernel. -/
def endsWithSlash (p : String) : Bool :=
  p.toList.getLast? == some '/'

/-- Model of `url.pathname.slice(0, -1)`. -/
def dropLastChar (p : String) : String :=
  String.mk p.toList.dropLast

/-- The trailing-slash normalization of `src/worker.js` line 42. -/
def stripTrailingSlash (p : String) : String :=
  if endsWithSlash p && p != "/" then dropLastChar p else p

/-- The routing and validation phase of the handler (`src/worker.js`
lines 15-80): everything before the upstream call. -/
def routeAndValidate (req : Request) : Routed :=
  if req.method ≠ "GET" ∧ req.method ≠ "OPTIONS" then
    .done methodNotAllowedResponse
  else if req.method = "OPTIONS" then
    .done optionsResponse
  else if req.pathname = "/" ∨ req.pathname = "" then
    .done rootResponse
  else if req.pathname = "/health" then
    .done healthResponse
  else if stripTrailingSlash req.pathname ≠ "/kline" ∧
      stripTrailingSlash req.pathname ≠ "/klines" then
    .done notFoundResponse
  else
    validateAndBuild req

/-! ### Upstream call and response mapping (`src/worker.js` lines 83-118) -/

/-- The observable outcome of the single `fetch` to the upstream API:
either a completed HTTP response (status plus body text, the body already
read by `upstreamResponse.text()`), or a transport failure carrying the
message the worker derives from the thrown error (`error.message`, or the
stringified value for a non-`Error` throw). -/
inductive UpstreamResult where
  | response (status : Nat) (text : String)
  | failure (message : String)

/-- `upstreamResponse.ok`: the status is in the success range 200-299. -/
def statusOk (status : Nat) : Bool :=
  decide (200 ≤ status) && decide (status ≤ 299)

def upstreamErrorResponse (status : Nat) (text : String) : Response :=
  jsonResponse (.obj [("error", .str "Upstream error"),
                      ("status", .num (status : ℚ)),
                      ("details", safeParseJSON text)]) 502

def successResponse (p : ValidatedParams) (text : String) : Response :=
  jsonResponse (.obj [("symbol", .str p.symbol),
                      ("interval", .str p.interval),
                      ("limit", .num (p.limit : ℚ)),
                      ("source", .str "binance"),
                      ("data", safeParseJSON text)]) 200

def fetchFailureResponse (message : String) : Response :=
  jsonResponse (.obj [("error", .str "Failed to fetch Binance kline data"),
                      ("message", .str message)]) 502

/-- The try-block of `src/worker.js` lines 83-118: mapping the outcome of
the single upstream call to the outbound response. -/
def handleUpstream (p : ValidatedParams) (u : UpstreamResult) : Response :=
  match u with
  | .response status text =>
    if !statusOk status then upstreamErrorResponse status text
    else successResponse p text
  | .failure message => fetchFailureResponse message

/-- The whole handler `fetch(request)` (`src/worker.js` lines 14-119),
with the outcome of the single upstream call supplied explicitly. -/
def workerFetch (req : Request) (u : UpstreamResult) : Response :=
  match routeAndValidate req with
  | .done r => r
  | .proceed p => handleUpstream p u

/-- The number of outbound network calls the handler makes: the upstream
`fetch` is executed exactly when routing and validation proceed. -/
def upstreamCallCount (req : Request) : Nat :=
  match routeAndValidate req with
  | .done _ => 0
  | .proceed _ => 1

/-- A GET request that reaches parameter validation: routing (method and
path checks, `src/worker.js` lines 15-52) passes it through to
`src/worker.js` line 54. -/
def isKlineRequest (req : Request) : Bool :=
  req.method == "GET" && req.pathname != "/" && req.pathname != "" &&
    req.pathname != "/health" &&
    (stripTrailingSlash req.pathname == "/kline" ||
     stripTrailingSlash req.pathname == "/klines")

/-- The `error` field of a response body, used to tell error envelopes
apart. -/
def errTag (r : Response) : Option String :=
  match r.body with
  | some (JSON.obj fields) =>
    match fields.find? fun f => f.1 == "error" with
    | some (_, JSON.str s) => some s
    | _ => none
  | _ => none

/-! ### Shared lemmas about the handler -/

theorem response_ne_of_status {a b : Response} (h : a.status ≠ b.status) : a ≠ b :=
  fun he => h (congrArg Response.status he)

theorem response_ne_of_errTag {a b : Response} (h : errTag a ≠ errTag b) : a ≠ b :=
  fun he => h (congrArg errTag he)

theorem invalidInterval_ne_invalidSymbol : invalidIntervalResponse ≠ invalidSymbolResponse :=
  response_ne_of_errTag (by decide)

theorem invalidRange_ne_invalidSymbol : invalidRangeResponse ≠ invalidSymbolResponse :=
  response_ne_of_errTag (by decide)

theorem invalidSymbol_ne_invalidInterval : invalidSymbolResponse ≠ invalidIntervalResponse :=
  response_ne_of_errTag (by decide)

theorem invalidRange_ne_invalidInterval : invalidRangeResponse ≠ invalidIntervalResponse :=
  response_ne_of_errTag (by decide)

theorem invalidInterval_ne_invalidRange : invalidIntervalResponse ≠ invalidRangeResponse :=
  response_ne_of_errTag (by decide)

theorem invalidSymbol_ne_invalidRange : invalidSymbolResponse ≠ invalidRangeResponse :=
  response_ne_of_errTag (by decide)

/-- The four possible outcomes of validation: invalid symbol. -/
theorem validateAndBuild_symbol_fail (req : Request)
    (h : matchesSymbolPattern (effectiveSymbol req) = false) :
    validateAndBuild req = .done invalidSymbolResponse := by
  simp [validateAndBuild, h]

/-- The four possible outcomes of validation: invalid interval. -/
theorem validateAndBuild_interval_fail (req : Request)
    (hs : matchesSymbolPattern (effectiveSymbol req) = true)
    (hi : ALLOWED_INTERVALS.contains (effectiveInterval req) = false) :
    validateAndBuild req = .done invalidIntervalResponse := by
  have hi2 : effectiveInterval req ∉ ALLOWED_INTERVALS := by simpa using hi
  simp [validateAndBuild, hs, hi2]

/-- The four possible outcomes of validation: invalid time range. -/
theorem validateAndBuild_range_fail (req : Request)
    (hs : matchesSymbolPattern (effectiveSymbol req) = true)
    (hi : ALLOWED_INTERVALS.contains (effectiveInterval req) = true)
    (hr : rangeInvalid (parseTime (getParam req "startTime"))
            (parseTime (getParam req "endTime")) = true) :
    validateAndBuild req = .done invalidRangeResponse := by
  have hi2 : effectiveInterval req ∈ ALLOWED_INTERVALS := by simpa using hi
  simp [validateAndBuild, hs, hi2, hr]

/-- The four possible outcomes of validation: all checks pass. -/
theorem validateAndBuild_pass (req : Request)
    (hs : matchesSymbolPattern (effectiveSymbol req) = true)
    (hi : ALLOWED_INTERVALS.contains (effectiveInterval req) = true)
    (hr : rangeInvalid (parseTime (getParam req "startTime"))
            (parseTime (getParam req "endTime")) = false) :
    validateAndBuild req = .proceed
      ⟨effectiveSymbol req, effectiveInterval req, clampLimit (getParam req "limit"),
       parseTime (getParam req "startTime"), parseTime (getParam req "endTime")⟩ := by
  have hi2 : effectiveInterval req ∈ ALLOWED_INTERVALS := by simpa using hi
  simp [validateAndBuild, hs, hi2, hr]

/-- Requests that pass routing are handed to parameter validation. -/
theorem routeAndValidate_kline (req : Request) (h : isKlineRequest req = true) :
    routeAndValidate req = validateAndBuild req := by
  simp only [isKlineRequest, Bool.and_eq_true, Bool.or_eq_true, beq_iff_eq,
    bne_iff_ne, ne_eq] at h
  obtain ⟨⟨⟨⟨hm, h1⟩, h2⟩, h3⟩, h4⟩ := h
  simp only [routeAndValidate, hm, ne_eq]
  rw [if_neg (by simp), if_neg (by decide), if_neg (by simp [h1, h2]),
    if_neg h3, if_neg (by rcases h4 with h4 | h4 <;> simp [h4])]

/-- Once the symbol passes, the `InvalidSymbol` error can no longer be
produced. -/
theorem validateAndBuild_ne_invalidSymbol (req : Request)
    (hs : matchesSymbolPattern (effectiveSymbol req) = true) :
    validateAndBuild req ≠ .done invalidSymbolResponse := by
  by_cases hi : ALLOWED_INTERVALS.contains (effectiveInterval req)
  · by_cases hr : rangeInvalid (parseTime (getParam req "startTime"))
        (parseTime (getParam req "endTime"))
    · rw [validateAndBuild_range_fail req hs hi hr]
      intro he
      exact invalidRange_ne_invalidSymbol (Routed.done.inj he)
    · rw [validateAndBuild_pass req hs hi (by simpa using hr)]
      intro he; cases he
  · rw [validateAndBuild_interval_fail req hs (by simpa using hi)]
    intro he
    exact invalidInterval_ne_invalidSymbol (Routed.done.inj he)

/-- An interval in the allowed set can no longer draw the
`InvalidInterval` error. -/
theorem validateAndBuild_ne_invalidInterval (req : Request)
    (hi : ALLOWED_INTERVALS.contains (effectiveInterval req) = true) :
    validateAndBuild req ≠ .done invalidIntervalResponse := by
  by_cases hs : matchesSymbolPattern (effectiveSymbol req)
  · by_cases hr : rangeInvalid (parseTime (getParam req "startTime"))
        (parseTime (getParam req "endTime"))
    · rw [validateAndBuild_range_fail req hs hi hr]
      intro he
      exact invalidRange_ne_invalidInterval (Routed.done.inj he)
    · rw [validateAndBuild_pass req hs hi (by simpa using hr)]
      intro he; cases he
  · rw [validateAndBuild_symbol_fail req (by simpa using hs)]
    intro he
    exact invalidSymbol_ne_invalidInterval (Routed.done.inj he)

/-- A valid (or partly absent) time range can no longer draw the
`InvalidRange` error. -/
theorem validateAndBuild_ne_invalidRange (req : Request)
    (hr : rangeInvalid (parseTime (getParam req "startTime"))
        (parseTime (getParam req "endTime")) = false) :
    validateAndBuild req ≠ .done invalidRangeResponse := by
  by_cases hs : matchesSymbolPattern (effectiveSymbol req)
  · by_cases hi : ALLOWED_INTERVALS.contains (effectiveInterval req)
    · rw [validateAndBuild_pass req hs hi hr]
      intro he; cases he
    · rw [validateAndBuild_interval_fail req hs (by simpa using hi)]
      intro he
      exact invalidInterval_ne_invalidRange (Routed.done.inj he)
  · rw [validateAndBuild_symbol_fail req (by simpa using hs)]
    intro he
    exact invalidSymbol_ne_invalidRange (Routed.done.inj he)

/-! ### Claim theorems -/

/-- C1: for every request to `/kline` or `/klines` that passes validation,
the single upstream call's outcome is mapped as follows: a completed
response with a status outside the 200-299 success range yields the
`UpstreamError` envelope (HTTP 502, carrying the upstream status code and
the best-effort parsed body as `details`); a transport failure yields the
`FetchFailure` envelope (HTTP 502, carrying the derived message); a
success-range response yields HTTP 200 with the Success envelope echoing
`symbol`, `interval`, `limit`, the fixed `source` tag `"binance"`, and the
best-effort parsed body as `data`. -/
theorem kline_upstream_response_mapping (req : Request) (p : ValidatedParams)
    (h : routeAndValidate req = .proceed p) :
    (∀ status text, statusOk status = false →
        workerFetch req (.response status text) = upstreamErrorResponse status text)
    ∧ (∀ message, workerFetch req (.failure message) = fetchFailureResponse message)
    ∧ (∀ status text, statusOk status = true →
        workerFetch req (.response status text) = successResponse p text)
    ∧ (∀ status text, (upstreamErrorResponse status text).status = 502)
    ∧ (∀ message, (fetchFailureResponse message).status = 502)
    ∧ (∀ text, (successResponse p text).status = 200) := by
  refine ⟨fun status text hst => ?_, fun message => ?_, fun status text hst => ?_,
    fun _ _ => rfl, fun _ => rfl, fun _ => rfl⟩
  · simp [workerFetch, h, handleUpstream, hst]
  · simp [workerFetch, h, handleUpstream]
  · simp [workerFetch, h, handleUpstream, hst]

/-- Witness for C1 at concrete inputs, including the spec's upstream-418
example. -/
theorem kline_upstream_response_mapping_witness :
    workerFetch ⟨"GET", "/kline", []⟩
        (.response 418 "\x7b\"code\":-1121,\"msg\":\"Invalid symbol.\"\x7d")
      = upstreamErrorResponse 418 "\x7b\"code\":-1121,\"msg\":\"Invalid symbol.\"\x7d"
    ∧ workerFetch ⟨"GET", "/kline", []⟩ (.failure "connection reset")
      = fetchFailureResponse "connection reset"
    ∧ workerFetch ⟨"GET", "/kline", []⟩ (.response 200 "[[1,2]]")
      = successResponse ⟨"BTCUSDT", "1m", 100, none, none⟩ "[[1,2]]" := by
  have h := kline_upstream_response_mapping ⟨"GET", "/kline", []⟩
    ⟨"BTCUSDT", "1m", 100, none, none⟩ rfl
  exact ⟨h.1 418 _ (by decide), h.2.1 _, h.2.2.1 200 _ (by decide)⟩

/-- C9: a request whose method is neither GET nor OPTIONS is answered with
the `MethodNotAllowed` envelope (HTTP 405) regardless of path; an OPTIONS
request is answered 204 with an empty body regardless of path, with no
further processing (in particular no upstream call in either case). -/
theorem method_dispatch (req : Request) :
    (req.method ≠ "GET" → req.method ≠ "OPTIONS" →
      (∀ u, workerFetch req u = methodNotAllowedResponse) ∧ upstreamCallCount req = 0)
    ∧ (req.method = "OPTIONS" →
      (∀ u, workerFetch req u = optionsResponse) ∧ upstreamCallCount req = 0)
    ∧ methodNotAllowedResponse.status = 405
    ∧ optionsResponse.status = 204 ∧ optionsResponse.body = none := by
  refine ⟨fun h1 h2 => ?_, fun h => ?_, rfl, rfl, rfl⟩
  · have hr : routeAndValidate req = .done methodNotAllowedResponse := by
      simp [routeAndValidate, h1, h2]
    exact ⟨fun u => by simp [workerFetch, hr], by simp [upstreamCallCount, hr]⟩
  · have hr : routeAndValidate req = .done optionsResponse := by
      simp [routeAndValidate, h]
    exact ⟨fun u => by simp [workerFetch, hr], by simp [upstreamCallCount, hr]⟩

/-- Witness for C9: a POST anywhere is 405; OPTIONS anywhere is 204. -/
theorem method_dispatch_witness :
    workerFetch ⟨"POST", "/kline", []⟩ (.response 200 "[]") = methodNotAllowedResponse
    ∧ workerFetch ⟨"OPTIONS", "/whatever", []⟩ (.response 200 "[]") = optionsResponse := by
  exact ⟨((method_dispatch ⟨"POST", "/kline", []⟩).1 (by decide) (by decide)).1 _,
    ((method_dispatch ⟨"OPTIONS", "/whatever", []⟩).2.1 rfl).1 _⟩

/-- Validation reads only the query parameters, not the method or path. -/
theorem validateAndBuild_only_params (m p m2 p2 : String) (qs : List (String × String)) :
    validateAndBuild ⟨m, p, qs⟩ = validateAndBuild ⟨m2, p2, qs⟩ := rfl

/-- A request the handler forwards upstream necessarily passed routing. -/
theorem isKline_of_proceed (req : Request) (p : ValidatedParams)
    (h : routeAndValidate req = .proceed p) : isKlineRequest req = true := by
  unfold routeAndValidate at h
  by_cases h1 : req.method ≠ "GET" ∧ req.method ≠ "OPTIONS"
  · rw [if_pos h1] at h; cases h
  rw [if_neg h1] at h
  by_cases h2 : req.method = "OPTIONS"
  · rw [if_pos h2] at h; cases h
  rw [if_neg h2] at h
  by_cases h3 : req.pathname = "/" ∨ req.pathname = ""
  · rw [if_pos h3] at h; cases h
  rw [if_neg h3] at h
  by_cases h4 : req.pathname = "/health"
  · rw [if_pos h4] at h; cases h
  rw [if_neg h4] at h
  by_cases h5 : stripTrailingSlash req.pathname ≠ "/kline" ∧
      stripTrailingSlash req.pathname ≠ "/klines"
  · rw [if_pos h5] at h; cases h
  have hm : req.method = "GET" := by tauto
  have hp : stripTrailingSlash req.pathname = "/kline" ∨
      stripTrailingSlash req.pathname = "/klines" := by tauto
  push_neg at h3
  simp only [isKlineRequest, hm, h3.1, h3.2, h4, Bool.and_eq_true, Bool.or_eq_true,
    beq_iff_eq, bne_iff_ne, ne_eq, not_false_eq_true, and_true, true_and, beq_self_eq_true]
  rcases hp with hp | hp <;> simp [hp]

/-- C7: validation failures (and every other locally answered request) are
decided without consulting the upstream at all — the response is the same
whatever the upstream would have done, and the outbound call count is 0 —
while a `/kline`/`/klines` request that passes validation makes exactly one
outbound call; requests answered by routing (including every non-kline
path) make none. -/
theorem fail_fast_single_upstream_call :
    (∀ req r, routeAndValidate req = .done r →
      (∀ u, workerFetch req u = r) ∧ upstreamCallCount req = 0)
    ∧ (∀ req p, routeAndValidate req = .proceed p → upstreamCallCount req = 1)
    ∧ (∀ req, isKlineRequest req = false → upstreamCallCount req = 0) := by
  refine ⟨fun req r h => ⟨fun u => by simp [workerFetch, h], by simp [upstreamCallCount, h]⟩,
    fun req p h => by simp [upstreamCallCount, h], fun req h => ?_⟩
  unfold upstreamCallCount
  cases hr : routeAndValidate req with
  | done r => rfl
  | proceed p => rw [isKline_of_proceed req p hr] at h; cases h

/-- Witness for C7: an invalid-symbol request is answered identically under
two different upstream behaviours and makes no call; a valid request makes
exactly one; `/health` makes none. -/
theorem fail_fast_single_upstream_call_witness :
    workerFetch ⟨"GET", "/kline", [("symbol", "btc")]⟩ (.response 200 "[]")
      = invalidSymbolResponse
    ∧ workerFetch ⟨"GET", "/kline", [("symbol", "btc")]⟩ (.failure "boom")
      = invalidSymbolResponse
    ∧ upstreamCallCount ⟨"GET", "/kline", [("symbol", "btc")]⟩ = 0
    ∧ upstreamCallCount ⟨"GET", "/kline", []⟩ = 1
    ∧ upstreamCallCount ⟨"GET", "/health", []⟩ = 0 := by
  have h1 := fail_fast_single_upstream_call.1 ⟨"GET", "/kline", [("symbol", "btc")]⟩
    invalidSymbolResponse rfl
  exact ⟨h1.1 _, h1.1 _, h1.2,
    fail_fast_single_upstream_call.2.1 _ ⟨"BTCUSDT", "1m", 100, none, none⟩ rfl,
    fail_fast_single_upstream_call.2.2 _ (by decide)⟩

/-- C8: GET path dispatch.  Path `/` (or the empty path) yields the service
descriptor with HTTP 200; `/health` yields `{status: "ok"}` with HTTP 200;
for any other path a trailing slash is stripped before matching (so
`/kline/` is handled exactly like `/kline`); only `/kline` and `/klines`
proceed to parameter validation; every other path yields the `NotFound`
envelope with HTTP 404. -/
theorem get_path_dispatch (req : Request) (hm : req.method = "GET") :
    (req.pathname = "/" ∨ req.pathname = "" →
      ∀ u, workerFetch req u = rootResponse)
    ∧ (req.pathname = "/health" → ∀ u, workerFetch req u = healthResponse)
    ∧ (req.pathname ≠ "/" → req.pathname ≠ "" → req.pathname ≠ "/health" →
      stripTrailingSlash req.pathname ≠ "/kline" →
      stripTrailingSlash req.pathname ≠ "/klines" →
      ∀ u, workerFetch req u = notFoundResponse)
    ∧ (req.pathname ≠ "/" → req.pathname ≠ "" → req.pathname ≠ "/health" →
      (stripTrailingSlash req.pathname = "/kline" ∨
       stripTrailingSlash req.pathname = "/klines") →
      routeAndValidate req = validateAndBuild req)
    ∧ (∀ qs u, workerFetch ⟨"GET", "/kline/", qs⟩ u = workerFetch ⟨"GET", "/kline", qs⟩ u)
    ∧ stripTrailingSlash "/kline/" = "/kline"
    ∧ rootResponse.status = 200 ∧ healthResponse.status = 200
    ∧ notFoundResponse.status = 404 := by
  refine ⟨fun hp u => ?_, fun hp u => ?_, fun h1 h2 h3 h4 h5 u => ?_,
    fun h1 h2 h3 h45 => ?_, fun qs u => rfl, by decide, rfl, rfl, rfl⟩
  · have hr : routeAndValidate req = .done rootResponse := by
      simp [routeAndValidate, hm, hp]
    simp [workerFetch, hr]
  · have hr : routeAndValidate req = .done healthResponse := by
      simp [routeAndValidate, hm, hp]
    simp [workerFetch, hr]
  · have hr : routeAndValidate req = .done notFoundResponse := by
      simp [routeAndValidate, hm, h1, h2, h3, h4, h5]
    simp [workerFetch, hr]
  · unfold routeAndValidate
    rw [if_neg (by simp [hm]), if_neg (by simp [hm]), if_neg (by simp [h1, h2]),
      if_neg h3, if_neg (by tauto)]

/-- Witness for C8 at concrete requests for each dispatch case. -/
theorem get_path_dispatch_witness :
    workerFetch ⟨"GET", "/", []⟩ (.failure "x") = rootResponse
    ∧ workerFetch ⟨"GET", "/health", []⟩ (.failure "x") = healthResponse
    ∧ workerFetch ⟨"GET", "/nope", []⟩ (.failure "x") = notFoundResponse
    ∧ routeAndValidate ⟨"GET", "/klines/", []⟩ = validateAndBuild ⟨"GET", "/klines/", []⟩
    ∧ workerFetch ⟨"GET", "/kline/", [("symbol", "btc")]⟩ (.failure "x")
      = workerFetch ⟨"GET", "/kline", [("symbol", "btc")]⟩ (.failure "x") := by
  refine ⟨(get_path_dispatch ⟨"GET", "/", []⟩ rfl).1 (Or.inl rfl) _,
    (get_path_dispatch ⟨"GET", "/health", []⟩ rfl).2.1 rfl _,
    (get_path_dispatch ⟨"GET", "/nope", []⟩ rfl).2.2.1 (by decide) (by decide)
      (by decide) (by decide) (by decide) _,
    (get_path_dispatch ⟨"GET", "/klines/", []⟩ rfl).2.2.2.1 (by decide) (by decide)
      (by decide) (Or.inr (by decide)),
    (get_path_dispatch ⟨"GET", "/kline/", [("symbol", "btc")]⟩ rfl).2.2.2.2.1
      [("symbol", "btc")] _⟩

/-- C2 counterexample: the claim says every non-matching symbol value —
including the empty string — fails with `InvalidSymbol`, but an explicit
`symbol=` (empty string) is falsy in JavaScript, so the worker substitutes
the default `BTCUSDT` and validation passes: the response to
`/kline?symbol=` is not the `InvalidSymbol` error. -/
theorem empty_symbol_not_rejected :
    matchesSymbolPattern "" = false
    ∧ routeAndValidate ⟨"GET", "/kline", [("symbol", "")]⟩
      = .proceed ⟨"BTCUSDT", "1m", 100, none, none⟩
    ∧ workerFetch ⟨"GET", "/kline", [("symbol", "")]⟩ (.response 200 "[]")
      ≠ invalidSymbolResponse := by
  refine ⟨by decide, rfl, response_ne_of_status (by decide)⟩

/-- C2 (amended): for requests routed to `/kline`/`/klines`, an absent or
empty-string `symbol` is replaced by the default `BTCUSDT` (and hence never
fails the symbol check), a non-empty `symbol` is uppercased, and the
effective symbol must match `^[A-Z0-9]{5,20}$`: if it does not match, the
response is the `InvalidSymbol` error with HTTP 400, and if it does match
the response is never the `InvalidSymbol` error. -/
theorem symbol_validation (req : Request) (hk : isKlineRequest req = true) :
    (getParam req "symbol" = none ∨ getParam req "symbol" = some "" →
      effectiveSymbol req = "BTCUSDT")
    ∧ (∀ s, getParam req "symbol" = some s → s ≠ "" →
      effectiveSymbol req = toUpperCase s)
    ∧ (matchesSymbolPattern (effectiveSymbol req) = false →
      routeAndValidate req = .done invalidSymbolResponse)
    ∧ (matchesSymbolPattern (effectiveSymbol req) = true →
      routeAndValidate req ≠ .done invalidSymbolResponse)
    ∧ invalidSymbolResponse.status = 400 := by
  rw [routeAndValidate_kline req hk]
  refine ⟨fun hp => ?_, fun s hp hs => ?_, fun hfail => ?_, fun hok => ?_, rfl⟩
  · rcases hp with hp | hp <;> simp [effectiveSymbol, jsOrDefault, hp] <;> decide
  · simp [effectiveSymbol, jsOrDefault, hp, hs]
  · exact validateAndBuild_symbol_fail req hfail
  · exact validateAndBuild_ne_invalidSymbol req hok

/-- Witness for C2 (amended) at concrete requests: an absent symbol
defaults, a lowercase symbol is uppercased and accepted, and a
non-matching symbol draws the 400 `InvalidSymbol` error. -/
theorem symbol_validation_witness :
    effectiveSymbol ⟨"GET", "/kline", []⟩ = "BTCUSDT"
    ∧ effectiveSymbol ⟨"GET", "/kline", [("symbol", "ethusdt")]⟩ = toUpperCase "ethusdt"
    ∧ routeAndValidate ⟨"GET", "/kline", [("symbol", "BTC_USDT")]⟩
      = .done invalidSymbolResponse
    ∧ routeAndValidate ⟨"GET", "/kline", [("symbol", "ethusdt")]⟩
      ≠ .done invalidSymbolResponse := by
  exact ⟨(symbol_validation ⟨"GET", "/kline", []⟩ (by decide)).1 (Or.inl rfl),
    (symbol_validation ⟨"GET", "/kline", [("symbol", "ethusdt")]⟩ (by decide)).2.1
      "ethusdt" rfl (by decide),
    (symbol_validation ⟨"GET", "/kline", [("symbol", "BTC_USDT")]⟩ (by decide)).2.2.1
      (by decide),
    (symbol_validation ⟨"GET", "/kline", [("symbol", "ethusdt")]⟩ (by decide)).2.2.2.1
      (by decide)⟩

/-- C3: for requests routed to `/kline`/`/klines` (with a valid symbol, the
check that precedes it), the interval defaults to `"1m"` when absent and
the effective interval must belong to the fixed set
`{1s,1m,3m,5m,15m,30m,1h,2h,4h,6h,8h,12h,1d,3d,1w,1M}` under a
case-sensitive string-equality membership check — `"1m"` and `"1M"` are
distinct members, `"2m"` and `"1Y"` are not members — otherwise the
response is the `InvalidInterval` error with HTTP 400. -/
theorem interval_validation (req : Request) (hk : isKlineRequest req = true)
    (hs : matchesSymbolPattern (effectiveSymbol req) = true) :
    (getParam req "interval" = none → effectiveInterval req = "1m")
    ∧ (ALLOWED_INTERVALS.contains (effectiveInterval req) = false →
      routeAndValidate req = .done invalidIntervalResponse)
    ∧ (ALLOWED_INTERVALS.contains (effectiveInterval req) = true →
      routeAndValidate req ≠ .done invalidIntervalResponse)
    ∧ ALLOWED_INTERVALS = ["1s", "1m", "3m", "5m", "15m", "30m", "1h", "2h",
        "4h", "6h", "8h", "12h", "1d", "3d", "1w", "1M"]
    ∧ ALLOWED_INTERVALS.contains "1m" = true
    ∧ ALLOWED_INTERVALS.contains "1M" = true
    ∧ "1m" ≠ "1M"
    ∧ ALLOWED_INTERVALS.contains "2m" = false
    ∧ ALLOWED_INTERVALS.contains "1Y" = false
    ∧ invalidIntervalResponse.status = 400 := by
  rw [routeAndValidate_kline req hk]
  refine ⟨fun hp => by simp [effectiveInterval, jsOrDefault, hp, DEFAULT_INTERVAL],
    fun hi => validateAndBuild_interval_fail req hs hi,
    fun hi => validateAndBuild_ne_invalidInterval req hi,
    rfl, by decide, by decide, by decide, by decide, by decide, rfl⟩

/-- Witness for C3 at concrete requests: an absent interval defaults to
`"1m"`; `"2m"` draws the 400 `InvalidInterval` error; `"1M"` is accepted
although `"1m"` is a different member. -/
theorem interval_validation_witness :
    effectiveInterval ⟨"GET", "/kline", []⟩ = "1m"
    ∧ routeAndValidate ⟨"GET", "/kline", [("interval", "2m")]⟩
      = .done invalidIntervalResponse
    ∧ routeAndValidate ⟨"GET", "/kline", [("interval", "1M")]⟩
      ≠ .done invalidIntervalResponse := by
  exact ⟨(interval_validation ⟨"GET", "/kline", []⟩ (by decide) (by decide)).1 rfl,
    (interval_validation ⟨"GET", "/kline", [("interval", "2m")]⟩ (by decide)
      (by decide)).2.1 (by decide),
    (interval_validation ⟨"GET", "/kline", [("interval", "1M")]⟩ (by decide)
      (by decide)).2.2.1 (by decide)⟩

/-- C6: for requests routed to `/kline`/`/klines` whose symbol and interval
pass the preceding checks, if both `startTime` and `endTime` parse to
non-null values and `startTime > endTime`, the response is the
`InvalidRange` error with HTTP 400; if the parsed range is not invalid
(`startTime ≤ endTime`, or either side null), the `InvalidRange` error is
never produced. -/
theorem range_validation (req : Request) (hk : isKlineRequest req = true)
    (hs : matchesSymbolPattern (effectiveSymbol req) = true)
    (hi : ALLOWED_INTERVALS.contains (effectiveInterval req) = true) :
    (∀ s e : Int, parseTime (getParam req "startTime") = some s →
      parseTime (getParam req "endTime") = some e → s > e →
      routeAndValidate req = .done invalidRangeResponse)
    ∧ (rangeInvalid (parseTime (getParam req "startTime"))
        (parseTime (getParam req "endTime")) = false →
      routeAndValidate req ≠ .done invalidRangeResponse)
    ∧ invalidRangeResponse.status = 400 := by
  rw [routeAndValidate_kline req hk]
  refine ⟨fun s e hps hpe hgt => ?_, fun hr => ?_, rfl⟩
  · exact validateAndBuild_range_fail req hs hi (by simp [rangeInvalid, hps, hpe, hgt])
  · exact validateAndBuild_ne_invalidRange req hr

/-- Witness for C6: `startTime=2000&endTime=1000` draws the 400
`InvalidRange` error; `startTime=1000&endTime=2000` does not. -/
theorem range_validation_witness :
    routeAndValidate ⟨"GET", "/kline", [("startTime", "2000"), ("endTime", "1000")]⟩
      = .done invalidRangeResponse
    ∧ routeAndValidate ⟨"GET", "/kline", [("startTime", "1000"), ("endTime", "2000")]⟩
      ≠ .done invalidRangeResponse := by
  exact ⟨(range_validation ⟨"GET", "/kline", [("startTime", "2000"), ("endTime", "1000")]⟩
      (by decide) (by decide) (by decide)).1 2000 1000 (by decide) (by decide) (by decide),
    (range_validation ⟨"GET", "/kline", [("startTime", "1000"), ("endTime", "2000")]⟩
      (by decide) (by decide) (by decide)).2.1 (by decide)⟩

/-- C10: for requests routed to `/kline`/`/klines`, an empty-string
`symbol` or `interval` query value is falsy in JavaScript's `||`, so the
worker treats it exactly like an absent parameter: the defaults `BTCUSDT`
and `"1m"` apply, and the empty string never produces an `InvalidSymbol`
or `InvalidInterval` error. -/
theorem empty_param_treated_as_absent (req : Request) (hk : isKlineRequest req = true) :
    (getParam req "symbol" = some "" →
      effectiveSymbol req = "BTCUSDT"
      ∧ routeAndValidate req ≠ .done invalidSymbolResponse)
    ∧ (getParam req "interval" = some "" →
      effectiveInterval req = "1m"
      ∧ routeAndValidate req ≠ .done invalidIntervalResponse) := by
  constructor
  · intro hp
    have hsym : effectiveSymbol req = "BTCUSDT" := by
      simp [effectiveSymbol, jsOrDefault, hp]; decide
    have hs : matchesSymbolPattern (effectiveSymbol req) = true := by
      rw [hsym]; decide
    rw [routeAndValidate_kline req hk]
    exact ⟨hsym, validateAndBuild_ne_invalidSymbol req hs⟩
  · intro hp
    have hint : effectiveInterval req = "1m" := by
      simp [effectiveInterval, jsOrDefault, hp, DEFAULT_INTERVAL]
    have hi : ALLOWED_INTERVALS.contains (effectiveInterval req) = true := by
      rw [hint]; decide
    rw [routeAndValidate_kline req hk]
    exact ⟨hint, validateAndBuild_ne_invalidInterval req hi⟩

/-- Witness for C10: `/kline?symbol=&interval=` passes validation with the
defaults applied. -/
theorem empty_param_treated_as_absent_witness :
    effectiveSymbol ⟨"GET", "/kline", [("symbol", ""), ("interval", "")]⟩ = "BTCUSDT"
    ∧ effectiveInterval ⟨"GET", "/kline", [("symbol", ""), ("interval", "")]⟩ = "1m"
    ∧ routeAndValidate ⟨"GET", "/kline", [("symbol", ""), ("interval", "")]⟩
      ≠ .done invalidSymbolResponse
    ∧ routeAndValidate ⟨"GET", "/kline", [("symbol", ""), ("interval", "")]⟩
      ≠ .done invalidIntervalResponse := by
  have h := empty_param_treated_as_absent
    ⟨"GET", "/kline", [("symbol", ""), ("interval", "")]⟩ (by decide)
  exact ⟨(h.1 rfl).1, (h.2 rfl).1, (h.1 rfl).2, (h.2 rfl).2⟩

/-! ### Arithmetic lemmas for the limit clamp -/

/-- Truncation toward zero of an integer is the integer itself. -/
theorem jsTrunc_intCast (n : ℤ) : jsTrunc ((n : ℚ)) = n := by
  simp [jsTrunc, Rat.num_intCast, Rat.den_intCast, Int.tdiv_one]

/-- On values that are at least 1, truncation toward zero is at least 1. -/
theorem one_le_jsTrunc (q : ℚ) (h : (1 : ℚ) ≤ q) : 1 ≤ jsTrunc q := by
  have h0 : (0 : ℚ) ≤ q := le_trans (by norm_num) h
  have hnum : 0 ≤ q.num := Rat.num_nonneg.mpr h0
  have hden : (0 : ℤ) ≤ (q.den : ℤ) := Int.ofNat_nonneg _
  have heq : jsTrunc q = ⌊q⌋ := by
    rw [jsTrunc, Int.tdiv_eq_ediv hnum hden, Rat.floor_def]
  rw [heq]
  exact Int.le_floor.mpr (by exact_mod_cast h)

/-- Re-clamping an integer already in the range `[1, 1000]` returns it
unchanged. -/
theorem clampLimitNum_intCast (m : ℤ) (h1 : 1 ≤ m) (h2 : m ≤ 1000) :
    clampLimitNum (.num (m : ℚ)) = m := by
  have hpos : ¬ ((m : ℚ) ≤ 0) := by
    rw [not_le]
    exact_mod_cast lt_of_lt_of_le zero_lt_one h1
  simp [clampLimitNum, hpos, jsTrunc_intCast, MAX_LIMIT, min_eq_left h2]

/-- C4 counterexample: the clamp is not idempotent.  `Number("0.5")` is
finite and positive, so the worker truncates it to `0` and returns `0`;
re-clamping `0` hits the `parsed <= 0` branch and returns the default
`100 ≠ 0`.  (The claim `clamp(x) = clamp(clamp(x))` fails at `x = "0.5"`.) -/
theorem clamp_not_idempotent :
    clampLimit (some "0.5") = 0
    ∧ clampLimitNum (.num ((clampLimit (some "0.5") : Int) : ℚ)) = 100
    ∧ clampLimitNum (.num ((clampLimit (some "0.5") : Int) : ℚ)) ≠ clampLimit (some "0.5") := by
  refine ⟨by decide, by decide, by decide⟩

/-- C4 (amended): the limit clamp is total and maps every raw value as
follows: an absent value or one whose `Number` conversion is non-finite
or ≤ 0 yields the default 100; a finite positive value is truncated toward
zero and capped at 1000.  Clamping is idempotent for every value except
those strictly between 0 and 1 (which clamp to 0 and re-clamp to 100);
concretely `clamp(-5) = clamp(0) = clamp("abc") = clamp(absent) = 100`,
`clamp(5000) = 1000`, `clamp(250) = 250`, `clamp(250.9) = 250`. -/
theorem clampLimit_spec :
    (∀ n : JSNum, n.isFinite = false → clampLimitNum n = DEFAULT_LIMIT)
    ∧ clampLimit none = DEFAULT_LIMIT
    ∧ (∀ q : ℚ, q ≤ 0 → clampLimitNum (.num q) = DEFAULT_LIMIT)
    ∧ (∀ q : ℚ, 0 < q → clampLimitNum (.num q) = min (jsTrunc q) MAX_LIMIT)
    ∧ (∀ n : JSNum, (∀ q : ℚ, n = .num q → ¬(0 < q ∧ q < 1)) →
      clampLimitNum (.num ((clampLimitNum n : Int) : ℚ)) = clampLimitNum n)
    ∧ DEFAULT_LIMIT = 100 ∧ MAX_LIMIT = 1000
    ∧ clampLimit (some "-5") = 100 ∧ clampLimit (some "0") = 100
    ∧ clampLimit (some "abc") = 100 ∧ clampLimit (some "5000") = 1000
    ∧ clampLimit (some "250") = 250 ∧ clampLimit (some "250.9") = 250 := by
  refine ⟨fun n hn => ?_, by decide, fun q hq => by simp [clampLimitNum, hq],
    fun q hq => by simp [clampLimitNum, not_le.mpr hq], fun n hn => ?_,
    rfl, rfl, by decide, by decide, by decide, by decide, by decide, by decide⟩
  · cases n with
    | num q => simp [JSNum.isFinite] at hn
    | nan => rfl
    | posInf => rfl
    | negInf => rfl
  · have h100 : clampLimitNum (.num ((100 : Int) : ℚ)) = 100 :=
      clampLimitNum_intCast 100 (by norm_num) (by norm_num)
    cases n with
    | nan => simpa [clampLimitNum, DEFAULT_LIMIT] using h100
    | posInf => simpa [clampLimitNum, DEFAULT_LIMIT] using h100
    | negInf => simpa [clampLimitNum, DEFAULT_LIMIT] using h100
    | num q =>
      by_cases hq : q ≤ 0
      · have hc : clampLimitNum (.num q) = 100 := by simp [clampLimitNum, hq, DEFAULT_LIMIT]
        rw [hc]; exact h100
      · have hq0 : 0 < q := not_le.mp hq
        have hq1 : (1 : ℚ) ≤ q := by
          rcases lt_or_ge q 1 with hlt | hge
          · exact absurd ⟨hq0, hlt⟩ (hn q rfl)
          · exact hge
        have htr : 1 ≤ jsTrunc q := one_le_jsTrunc q hq1
        have hc : clampLimitNum (.num q) = min (jsTrunc q) MAX_LIMIT := by
          simp [clampLimitNum, hq]
        rw [hc]
        exact clampLimitNum_intCast _ (le_min htr (by norm_num [MAX_LIMIT]))
          (min_le_right (jsTrunc q) MAX_LIMIT)

/-- Witness for C4 (amended) at concrete values: idempotence at 250 and
at NaN, and the truncate-and-cap branch at 250.9. -/
theorem clampLimit_spec_witness :
    clampLimitNum (.num ((clampLimitNum (.num 250) : Int) : ℚ)) = clampLimitNum (.num 250)
    ∧ clampLimitNum (.num ((clampLimitNum .nan : Int) : ℚ)) = clampLimitNum .nan
    ∧ clampLimitNum (.num (mkRat 2509 10)) = min (jsTrunc (mkRat 2509 10)) MAX_LIMIT
    ∧ clampLimitNum .posInf = DEFAULT_LIMIT := by
  exact ⟨clampLimit_spec.2.2.2.2.1 (.num 250) (by intro q hq; cases hq; decide),
    clampLimit_spec.2.2.2.2.1 .nan (by intro q hq; cases hq),
    clampLimit_spec.2.2.2.1 (mkRat 2509 10) (by decide),
    clampLimit_spec.1 .posInf rfl⟩

/-- C5: `parseTime` is total and never produces an error: it returns
`null` exactly when the value is absent, the empty string, converts to a
non-finite number, or converts to a negative number; any other value is
truncated toward zero to an integer.  Concretely
`parseTime(null) = parseTime("") = parseTime("-1") = parseTime("abc") =
null` and `parseTime("1000.7") = 1000`. -/
theorem parseTime_spec :
    (∀ v, parseTime v = none ↔
      (v = none ∨ v = some "" ∨ (jsToNumber v).isFinite = false
        ∨ ∃ q : ℚ, jsToNumber v = .num q ∧ q < 0))
    ∧ (∀ v q, jsToNumber v = .num q → 0 ≤ q → v ≠ none → v ≠ some "" →
      parseTime v = some (jsTrunc q))
    ∧ parseTime none = none ∧ parseTime (some "") = none
    ∧ parseTime (some "-1") = none ∧ parseTime (some "abc") = none
    ∧ parseTime (some "1000.7") = some 1000 := by
  refine ⟨fun v => ?_, fun v q hq hq0 hv hv2 => ?_,
    by decide, by decide, by decide, by decide, by decide⟩
  · cases v with
    | none => simp [parseTime]
    | some s =>
      by_cases hs : s = ""
      · simp [parseTime, hs]
      · cases hn : jsStringToNumber s with
        | num q =>
          by_cases hlt : q < 0 <;>
            simp [parseTime, hs, hn, jsToNumber, JSNum.isFinite, hlt, not_lt.mp]
        | nan => simp [parseTime, hs, hn, jsToNumber, JSNum.isFinite]
        | posInf => simp [parseTime, hs, hn, jsToNumber, JSNum.isFinite]
        | negInf => simp [parseTime, hs, hn, jsToNumber, JSNum.isFinite]
  · cases v with
    | none => exact absurd rfl hv
    | some s =>
      have hs : s ≠ "" := fun h => hv2 (by rw [h])
      simp only [jsToNumber] at hq
      simp [parseTime, hs, hq, not_lt.mpr hq0]

/-- Witness for C5: the truncating branch applied at `"12.9"`. -/
theorem parseTime_spec_witness :
    parseTime (some "12.9") = some (jsTrunc (mkRat 129 10)) :=
  parseTime_spec.2.1 (some "12.9") (mkRat 129 10) (by decide) (by decide)
    (by decide) (by decide)
